import Mathlib

/-!
Verification development for the sssg static site generator
(`sssg/__init__.py`).  The Python pipeline is shallowly embedded: pure
parts of the program become Lean functions, fallible parts return
`Except BuildError`, and the external collaborators (tomllib, dateutil,
mistletoe, pygments) become explicit function parameters, since the
program only composes their results.
-/

namespace Sssg

/-! Model of Python `datetime.datetime` values as produced by
`dateutil.parser.parse`: a naive wall-clock plus an optional fixed UTC
offset in seconds (`tzinfo`).  Python compares aware datetimes by the
instant they denote, i.e. wall-clock minus offset. -/

structure PyDateTime where
  year : Nat
  month : Nat
  day : Nat
  hour : Nat
  minute : Nat
  second : Nat
  tz : Option Int
deriving Repr, DecidableEq

/-- Days of the proleptic Gregorian calendar since the era base
0000-03-01, computed from a civil date (valid for year at least 1,
which is the datetime range).  Standard civil-from-days arithmetic. -/
def daysFromCivil (y m d : Nat) : Nat :=
  let yAdj := if m ≤ 2 then y - 1 else y
  let era := yAdj / 400
  let yoe := yAdj % 400
  let mp := (m + 9) % 12
  let doy := (153 * mp + 2) / 5 + (d - 1)
  let doe := yoe * 365 + yoe / 4 - yoe / 100 + doy
  era * 146097 + doe

/-- The instant denoted by a datetime, in seconds on a fixed epoch.
An aware datetime (line 148 of the source makes every stored `dt`
aware) denotes wall-clock minus its UTC offset; Python orders aware
datetimes by this value. -/
def toEpoch (d : PyDateTime) : Int :=
  (daysFromCivil d.year d.month d.day : Int) * 86400
    + (d.hour : Int) * 3600 + (d.minute : Int) * 60 + (d.second : Int)
    - (d.tz.getD 0)

/-- Embedding of `datetime.replace(tzinfo=...)`: the wall-clock fields
are kept and the tzinfo is overwritten, whatever it was before. -/
def pyReplaceTzinfo (d : PyDateTime) (tz : Option Int) : PyDateTime :=
  { d with tz := tz }

/-- The offset of `datetime.timezone.utc`. -/
def utcTz : Option Int := some 0

def pad2 (n : Nat) : String :=
  if n < 10 then "0" ++ toString n else toString n

def pad4 (n : Nat) : String :=
  if n < 10 then "000" ++ toString n
  else if n < 100 then "00" ++ toString n
  else if n < 1000 then "0" ++ toString n
  else toString n

/-- Suffix `isoformat` appends for the tzinfo: empty for a naive
datetime, otherwise the signed offset as HH:MM. -/
def tzSuffix : Option Int → String
  | none => ""
  | some off =>
    let sign := if off < 0 then "-" else "+"
    let a := off.natAbs
    sign ++ pad2 (a / 3600) ++ ":" ++ pad2 (a % 3600 / 60)

/-- Embedding of `datetime.isoformat(sep)`.  Python defaults `sep` to
"T"; the source calls `.isoformat("T")` in the feed (lines 193 and 202)
and `.isoformat()` in the sitemap (line 216), which is the same
function with the same separator. -/
def pyIsoformat (sep : String) (d : PyDateTime) : String :=
  pad4 d.year ++ "-" ++ pad2 d.month ++ "-" ++ pad2 d.day ++ sep
    ++ pad2 d.hour ++ ":" ++ pad2 d.minute ++ ":" ++ pad2 d.second
    ++ tzSuffix d.tz

/-! The per-post record built in the loop of `main` (lines 136-156).
The Python dict also keeps any extra front-matter fields; only the
fields the program reads are modelled. -/

structure PostInfo where
  title : String
  date : String
  summary : Option String
  slug : String
  location : String
  dt : PyDateTime
deriving Repr, DecidableEq

instance : Inhabited PostInfo :=
  ⟨{ title := "", date := "", summary := none, slug := "", location := "",
     dt := { year := 1, month := 1, day := 1, hour := 0, minute := 0, second := 0, tz := none } }⟩

/-- The descending-by-parsed-date comparison used by
`post_infos.sort(key=lambda info: info["dt"], reverse=True)` at
line 157: `a` may precede `b` exactly when the date of `b` is not
newer. -/
def dtGe (a b : PostInfo) : Prop := toEpoch b.dt ≤ toEpoch a.dt

instance : DecidableRel dtGe := fun a b =>
  inferInstanceAs (Decidable (toEpoch b.dt ≤ toEpoch a.dt))

/-- Embedding of `post_infos.sort(key=lambda info: info["dt"],
reverse=True)`.  Python `list.sort` is a stable sort; a stable sort is
determined up to extensional equality by being sorted, a permutation,
and stable, so the insertion sort with the non-strict descending
comparison is extensionally that function. -/
def pySortRevByDt (l : List PostInfo) : List PostInfo :=
  List.insertionSort dtGe l

/-! Template engine: `class Template(string.Template)` with
`delimiter = "$$$$"` (lines 33-34).  A skeleton alternates literal text
with named placeholders, and `substitute` raises `KeyError` when a
placeholder has no value in the supplied mapping. -/

inductive TPart where
  | lit (s : String)
  | hole (name : String)
deriving Repr, DecidableEq

structure Template where
  parts : List TPart
deriving Repr, DecidableEq

def templateDelimiter : String := "$$$$"

inductive BuildError where
  | malformedPost (stem : String)
  | tomlError (stem msg : String)
  | keyError (stem key : String)
  | dateError (stem msg : String)
  | mdError (msg : String)
  | templateKeyError (name : String)
  | nameErrorPost
  | valueErrorMaxEmpty
deriving Repr, DecidableEq

/-- Substitution over the parsed parts of a template: literals are
copied, placeholders are looked up in the mapping, and a missing
placeholder value is an error (the `KeyError` of
`string.Template.substitute`), never silently kept or dropped. -/
def substituteParts (parts : List TPart) (m : List (String × String)) :
    Except BuildError String :=
  match parts with
  | [] => Except.ok ""
  | .lit s :: rest =>
    match substituteParts rest m with
    | .error e => .error e
    | .ok t => .ok (s ++ t)
  | .hole n :: rest =>
    match List.lookup n m with
    | none => .error (.templateKeyError n)
    | some v =>
      match substituteParts rest m with
      | .error e => .error e
      | .ok t => .ok (v ++ t)

def Template.substitute (t : Template) (m : List (String × String)) :
    Except BuildError String :=
  substituteParts t.parts m

/-! The constant HTML snippets of the module (lines 37-122 of the
source).  Brace characters of the CSS are written as \x7b and \x7d and
apostrophes as \x27; both denote the literal characters. -/

def GITHUB_MARKDOWN : String :=
  "<link rel=\"stylesheet\" href=\"https://cdnjs.cloudflare.com/ajax/libs/github-markdown-css/5.1.0/github-markdown.min.css\" integrity=\"sha512-KUoB3bZ1XRBYj1QcH4BHCQjurAZnCO3WdrswyLDtp7BMwCw7dPZngSLqILf68SGgvnWHTD5pPaYrXi6wiRJ65g==\" crossorigin=\"anonymous\" referrerpolicy=\"no-referrer\" />"

def GITHUB_CSS : String :=
  "\n<style>\n.body-sizing \x7b\n    box-sizing: border-box;\n    min-width: 200px;\n    max-width: 980px;\n    margin: 0 auto;\n\x7d\n.body-padding \x7b\n    padding: 45px;\n\x7d\n@media (max-width: 767px) \x7b\n    .body-padding \x7b\n        padding: 15px;\n    \x7d\n\x7d\n</style>\n"

def GOAT_COUNTER : String :=
  "\n<script data-goatcounter=\"https://hauntsaninja.goatcounter.com/count\" async src=\"//gc.zgo.at/count.js\"></script>\n"

def HEADER : String :=
  "\n<header class=\"markdown-body body-sizing\">\n<nav am-layout=\"horizontal\">\n<a href=\"/\" style=\"padding-right: 10px\">Home</a>\n<a href=\"https://github.com/hauntsaninja\" style=\"padding-right: 10px\">Github</a>\n<a href=\"https://twitter.com/hauntsaninja\" style=\"padding-right: 10px\">Twitter</a>\n<a href=\"https://www.linkedin.com/in/shantanu-jain-yes-that-one/\" style=\"padding-right: 10px\">LinkedIn</a>\n</nav>\n</header>\n"

def UTTERANCES : String :=
  "\n<script src=\"https://utteranc.es/client.js\"\n        repo=\"hauntsaninja/blog_comments\"\n        issue-term=\"pathname\"\n        label=\"comment\"\n        theme=\"preferred-color-scheme\"\n        crossorigin=\"anonymous\"\n        async>\n</script>\n"

/-- The HOME skeleton (lines 62-79): one placeholder, the rendered
home Markdown fragment, written `$$$$\x7bhome\x7d` in the source
f-string. -/
def HOME : Template :=
  { parts :=
      [ .lit ("\n<!doctype html>\n<html>\n<head>\n<meta charset=\"utf-8\">\n<meta name=\"viewport\" content=\"width=device-width, initial-scale=1\">\n<meta name=\"google-site-verification\" content=\"NcC5nFv5YhOoK4HzZ04YD-OjQ-jKLzT9_AQK1NyT-9w\" />\n"
          ++ GITHUB_MARKDOWN
          ++ "\n<link rel=\"alternate\" type=\"application/atom+xml\" title=\"Shantanu\x27s Blog\" href=\"/feed.xml\">\n<title>Shantanu</title>\n"
          ++ GITHUB_CSS
          ++ "\n</head>\n<body class=\"markdown-body body-sizing body-padding\">\n"),
        .hole "home",
        .lit ("\n" ++ GOAT_COUNTER ++ "\n</body>\n</html>\n") ] }

/-- The POST skeleton (lines 103-122): two placeholders, the post
title inside the title tag and the rendered article fragment. -/
def POST : Template :=
  { parts :=
      [ .lit ("\n<!doctype html>\n<html>\n<head>\n<meta charset=\"utf-8\">\n<meta name=\"viewport\" content=\"width=device-width, initial-scale=1\">\n"
          ++ GITHUB_MARKDOWN
          ++ "\n<title>"),
        .hole "title",
        .lit ("</title>\n</head>\n" ++ GITHUB_CSS
          ++ "\n<body class=\"markdown-body body-sizing body-padding\">\n" ++ HEADER
          ++ "\n<article>\n"),
        .hole "article",
        .lit ("\n</article>\n" ++ UTTERANCES ++ "\n" ++ GOAT_COUNTER
          ++ "\n</body>\n</html>\n") ] }

/-- The fixed prefix of `home_markdown` (lines 159-181), before the
post-list bullet lines are appended. -/
def HOME_MD_BASE : String :=
  "\n# Hello!\n\nI\x27m Shantanu. I can often be found under the username hauntsaninja â€” in particular, find me at:\n- [Github](https://github.com/hauntsaninja)\n- [Bluesky](https://bsky.app/profile/hauntsaninja.bsky.social) / [Twitter](https://twitter.com/hauntsaninja)\n- [LinkedIn](https://www.linkedin.com/in/shantanu-jain-yes-that-one/)\n- username at gmail dot com\n- [RSS feed](/feed.xml)\n\nI contribute to open source software, particularly in the Python and static type checking\necosystems. I\x27m a maintainer of [mypy](https://github.com/python/mypy) and\n[typeshed](https://github.com/python/typeshed), a [CPython](https://github.com/python/cpython)\ncore developer, and contributor to several other projects. Check out this fun\n[Python CLI tool](https://github.com/hauntsaninja/pyp) I made.\n\nI\x27ve worked on language models at [OpenAI](https://openai.com) since 2020, studying what data to feed them\nand building infrastructure to train them. Prior to that, I worked at [Quora](https://www.quora.com/).\n\n---\n\nHere\x27s a list of posts on this blog:\n"

/-- The bullet line appended to `home_markdown` for one post
(line 183). -/
def homeLinkLine (info : PostInfo) : String :=
  "- [" ++ info.title ++ "](" ++ info.location ++ ")\n"

/-- The ordered post-list lines of the home page, one per post in the
given order. -/
def homeLinkLines (infos : List PostInfo) : List String :=
  infos.map homeLinkLine

/-- The full `home_markdown` string (lines 159-183). -/
def homeMarkdown (infos : List PostInfo) : String :=
  HOME_MD_BASE ++ String.join (homeLinkLines infos)

def ROBOTS : String :=
  "User-agent: *\nAllow: /\nSitemap: https://hauntsaninja.github.io/sitemap.xml"

/-! Feed and sitemap emitters (lines 188-218), modelled as the
structured XML trees the program builds; `ET.tostring` serializes the
tree deterministically in construction order. -/

structure AtomEntry where
  id : String
  title : String
  updated : String
  authorName : String
  linkHref : String
  summary : Option String
deriving Repr, DecidableEq

structure AtomFeed where
  title : String
  id : String
  updated : String
  selfLinkHref : String
  authorName : String
  entries : List AtomEntry
deriving Repr, DecidableEq, Inhabited

structure SitemapUrl where
  loc : String
  lastmod : String
deriving Repr, DecidableEq

/-- Embedding of Python `max` over a list of datetimes: an empty
iterable raises `ValueError`; otherwise the greatest element, keeping
the earliest of equals. -/
def pyMaxDt : List PyDateTime → Except BuildError PyDateTime
  | [] => .error .valueErrorMaxEmpty
  | d :: ds => .ok (ds.foldl (fun cur x => if toEpoch cur < toEpoch x then x else cur) d)

/-- One feed entry (lines 197-206). -/
def atomEntryOf (info : PostInfo) : AtomEntry :=
  { id := "tag:hauntsaninja.github.io,2024:" ++ info.slug
    title := info.title
    updated := pyIsoformat "T" info.dt
    authorName := "Shantanu"
    linkHref := "https://hauntsaninja.github.io/" ++ info.location
    summary := info.summary }

/-- The Atom feed (lines 188-206): fixed title, id, self link and
author, `updated` equal to `max(info["dt"] for info in post_infos)`
formatted with `isoformat("T")`, and one entry per post in list
order. -/
def atomFeedOf (infos : List PostInfo) : Except BuildError AtomFeed :=
  match pyMaxDt (infos.map (fun i => i.dt)) with
  | .error e => .error e
  | .ok mx =>
    .ok
      { title := "Shantanu\x27s blog"
        id := "https://hauntsaninja.github.io/"
        updated := pyIsoformat "T" mx
        selfLinkHref := "https://hauntsaninja.github.io/feed.xml"
        authorName := "Shantanu"
        entries := infos.map atomEntryOf }

/-- The sitemap (lines 211-216): one url element per post in list
order, with absolute location and `lastmod` equal to
`info["dt"].isoformat()` (default separator "T"). -/
def sitemapUrls (infos : List PostInfo) : List SitemapUrl :=
  infos.map fun i =>
    { loc := "https://hauntsaninja.github.io/" ++ i.location
      lastmod := pyIsoformat "T" i.dt }

/-! The pygments renderer (lines 19-30).  The lexer registry, the
content-based guesser and the highlighter are the external
collaborators; `get_lexer` is get-by-exact-alias-or-raise
(`ClassNotFound`), and `guess_lexer` picks a lexer from the code
content.  A lexer is identified by its alias string. -/

structure CodeToken where
  language : String
  content : String
deriving Repr, DecidableEq

/-- Embedding of `pygments.lexers.get_lexer_by_name`: the lexer whose
registered alias is exactly the requested name, or an error when no
lexer carries that alias. -/
def get_lexer (lexers : List String) (name : String) : Except String String :=
  if name ∈ lexers then .ok name else .error ("no lexer for alias " ++ name)

/-- Embedding of `PygmentsRenderer.render_block_code` (lines 27-30):
a truthy (non-empty) language tag selects the lexer registered for
that exact tag, an untagged block guesses the lexer from the code
content, and the chosen lexer is applied by `highlight`. -/
def render_block_code (lexers : List String) (guess_lexer : String → String)
    (highlight : String → String → String) (token : CodeToken) :
    Except String String :=
  let code := token.content
  match (if token.language ≠ "" then get_lexer lexers token.language
         else .ok (guess_lexer code)) with
  | .error e => .error e
  | .ok lexer => .ok (highlight code lexer)

/-! The build orchestrator `main` (lines 125-222). -/

/-- One source post file: the stem of its filename under `posts/` and
its lines as read by `f.readlines()` (each line keeps its newline). -/
structure SrcFile where
  stem : String
  lines : List String
deriving Repr, DecidableEq

/-- The external collaborators `main` composes: `tomllib.loads` on the
front-matter block, `dateutil.parser.parse` on the date string,
`mistletoe.markdown` with the pygments renderer on the post body, and
plain `mistletoe.markdown` on the home page Markdown. -/
structure Collab where
  tomllib_loads : String → Except String (List (String × String))
  dateutil_parse : String → Except String PyDateTime
  markdown_pygments : List String → Except String String
  markdown_home : String → Except String String

/-- Applies a fallible step to every element in order, stopping at the
first failure, as the for-loop over `posts_dir.glob("*.md")` does. -/
def mapExcept (f : α → Except ε β) : List α → Except ε (List β)
  | [] => .ok []
  | x :: xs =>
    match f x with
    | .error e => .error e
    | .ok y =>
      match mapExcept f xs with
      | .error e => .error e
      | .ok ys => .ok (y :: ys)

/-- The loop body of `main` (lines 138-155) for one post file: checks
the first line is the front-matter delimiter (the `assert` at
line 142), finds the second delimiter (`contents.index("---\n", 1)`,
a `ValueError` when absent), parses the metadata block, derives slug,
output location and the UTC-stamped parsed date, renders the body
behind the injected title and date heading, and fills the POST
skeleton.  Returns the post record together with the written file
(name and content). -/
def processFile (c : Collab) (post : SrcFile) :
    Except BuildError (PostInfo × (String × String)) :=
  match post.lines.head? with
  | none => .error (.malformedPost post.stem)
  | some line0 =>
    if line0 = "---\n" then
      match (post.lines.drop 1).findIdx? (fun l => l = "---\n") with
      | none => .error (.malformedPost post.stem)
      | some i =>
        match c.tomllib_loads (String.join ((post.lines.drop 1).take i)) with
        | .error e => .error (.tomlError post.stem e)
        | .ok fm =>
          match List.lookup "date" fm with
          | none => .error (.keyError post.stem "date")
          | some date =>
            match c.dateutil_parse date with
            | .error e => .error (.dateError post.stem e)
            | .ok dt0 =>
              match List.lookup "title" fm with
              | none => .error (.keyError post.stem "title")
              | some title =>
                let dt := pyReplaceTzinfo dt0 utcTz
                let info : PostInfo :=
                  { title := title, date := date, summary := List.lookup "summary" fm,
                    slug := post.stem, location := post.stem ++ ".html", dt := dt }
                let mdContents := ("# " ++ title ++ "\n\n") :: ("*" ++ date ++ "*\n")
                                    :: (post.lines.drop 1).drop (i + 1)
                match c.markdown_pygments mdContents with
                | .error e => .error (.mdError e)
                | .ok mdHtml =>
                  match POST.substitute [("article", mdHtml), ("title", title)] with
                  | .error e => .error e
                  | .ok page => .ok (info, (info.location, page))
    else .error (.malformedPost post.stem)

/-- The files the build writes. -/
structure Outputs where
  pages : List (String × String)
  indexHtml : String
  feed : AtomFeed
  sitemap : List SitemapUrl
  robots : String
deriving Repr, DecidableEq, Inhabited

/-- The whole of `main` after argument parsing (lines 133-222): the
per-post loop, the `del post` at line 156 (a `NameError` aborting the
build when the loop bound nothing, i.e. the glob matched no file), the
descending stable sort, the home page, the feed, the sitemap and the
robots file. -/
def buildSite (c : Collab) (files : List SrcFile) : Except BuildError Outputs :=
  match mapExcept (processFile c) files with
  | .error e => .error e
  | .ok rs =>
    if files.isEmpty then .error .nameErrorPost else
    let post_infos := pySortRevByDt (rs.map Prod.fst)
    match c.markdown_home (homeMarkdown post_infos) with
    | .error e => .error (.mdError e)
    | .ok homeHtml =>
      match HOME.substitute [("home", homeHtml)] with
      | .error e => .error e
      | .ok indexHtml =>
        match atomFeedOf post_infos with
        | .error e => .error e
        | .ok feed =>
          .ok
            { pages := rs.map Prod.snd
              indexHtml := indexHtml
              feed := feed
              sitemap := sitemapUrls post_infos
              robots := ROBOTS }

/-! Definitions following the words of the spec, used to compare the
spec against the code where the two disagree. -/

/-- Modelled from the spec: "last-modified date (date-only ISO form,
not full timestamp)" for the sitemap. -/
def specDateOnlyLastmod (d : PyDateTime) : String :=
  pad4 d.year ++ "-" ++ pad2 d.month ++ "-" ++ pad2 d.day

/-- Modelled from the spec: the sort key "treated as a timezone-aware
instant, defaulting to UTC when the source string lacks a zone", with
a zone present in the source string respected. -/
def specAwareDt (d : PyDateTime) : PyDateTime :=
  if d.tz = none then pyReplaceTzinfo d utcTz else d

/-! Helper lemmas. -/

/-- Extraction of the value of a successful `Except`. -/
def exOk [Inhabited β] : Except ε β → β
  | .ok y => y
  | .error _ => default

theorem mapExcept_ok_mem {f : α → Except ε β} {l : List α} {ys : List β}
    (h : mapExcept f l = .ok ys) : ∀ x ∈ l, ∃ y, f x = .ok y := by
  induction l generalizing ys with
  | nil => intro x hx; cases hx
  | cons a as ih =>
    intro x hx
    unfold mapExcept at h
    cases hfa : f a with
    | error e => rw [hfa] at h; cases h
    | ok y =>
      rw [hfa] at h
      cases hrest : mapExcept f as with
      | error e => rw [hrest] at h; cases h
      | ok ys' =>
        rw [hrest] at h
        rcases List.mem_cons.mp hx with rfl | hx'
        · exact ⟨y, hfa⟩
        · exact ih hrest x hx'

theorem mapExcept_ok_eq_map [Inhabited β] {f : α → Except ε β} {l : List α}
    {ys : List β} (h : mapExcept f l = .ok ys) :
    ys = l.map (fun x => exOk (f x)) := by
  induction l generalizing ys with
  | nil => unfold mapExcept at h; cases h; rfl
  | cons a as ih =>
    unfold mapExcept at h
    cases hfa : f a with
    | error e => rw [hfa] at h; cases h
    | ok y =>
      rw [hfa] at h
      cases hrest : mapExcept f as with
      | error e => rw [hrest] at h; cases h
      | ok ys' =>
        rw [hrest] at h
        cases h
        simp [List.map_cons, exOk, hfa, ih hrest]

theorem mapExcept_error_of_mem {f : α → Except ε β} {l : List α} {x : α}
    (hx : x ∈ l) (he : f x = .error e) :
    ∃ e', mapExcept f l = .error e' := by
  induction l with
  | nil => cases hx
  | cons a as ih =>
    rcases List.mem_cons.mp hx with rfl | hx'
    · unfold mapExcept; rw [he]; exact ⟨e, rfl⟩
    · unfold mapExcept
      cases hfa : f a with
      | error e'' => exact ⟨e'', rfl⟩
      | ok y =>
        rcases ih hx' with ⟨e', hmap⟩
        rw [hmap]; exact ⟨e', rfl⟩

theorem mapExcept_ok_of_forall [Inhabited β] {f : α → Except ε β} {l : List α}
    (h : ∀ x ∈ l, ∃ y, f x = .ok y) :
    mapExcept f l = .ok (l.map (fun x => exOk (f x))) := by
  induction l with
  | nil => rfl
  | cons a as ih =>
    rcases h a (List.mem_cons_self a as) with ⟨y, hy⟩
    unfold mapExcept
    rw [hy, ih (fun x hx => h x (List.mem_cons_of_mem a hx))]
    simp [exOk, hy]

/-- Inversion of a successful build: the loop succeeded on every file,
the file list was not empty, every later stage succeeded, and the
output fields are the stages applied to the sorted post records. -/
theorem buildSite_ok_inv {c : Collab} {files : List SrcFile} {out : Outputs}
    (h : buildSite c files = .ok out) :
    ∃ rs homeHtml indexHtml feed,
      mapExcept (processFile c) files = .ok rs
      ∧ files.isEmpty = false
      ∧ c.markdown_home (homeMarkdown (pySortRevByDt (rs.map Prod.fst))) = .ok homeHtml
      ∧ HOME.substitute [("home", homeHtml)] = .ok indexHtml
      ∧ atomFeedOf (pySortRevByDt (rs.map Prod.fst)) = .ok feed
      ∧ out = { pages := rs.map Prod.snd
                indexHtml := indexHtml
                feed := feed
                sitemap := sitemapUrls (pySortRevByDt (rs.map Prod.fst))
                robots := ROBOTS } := by
  unfold buildSite at h
  split at h
  · cases h
  · next rs hm =>
    split at h
    · cases h
    · next hemp =>
      simp only at h
      split at h
      · cases h
      · next homeHtml hh =>
        split at h
        · cases h
        · next indexHtml hs =>
          split at h
          · cases h
          · next feed hf =>
            cases h
            exact ⟨rs, homeHtml, indexHtml, feed, hm,
              Bool.eq_false_iff.mpr hemp, hh, hs, hf, rfl⟩

/-- The error path of the loop aborts the whole build. -/
theorem buildSite_error_of_mapExcept {c : Collab} {files : List SrcFile}
    (h : ∃ e, mapExcept (processFile c) files = .error e) :
    ∃ e', buildSite c files = .error e' := by
  rcases h with ⟨e, he⟩
  unfold buildSite
  rw [he]
  exact ⟨e, rfl⟩

/-- Shape of a successful per-post step: the record keeps the file
stem as slug, the output location is the stem followed by ".html", the
written file is named by that location, and the stored datetime has
had its tzinfo replaced with UTC. -/
theorem processFile_ok_shape {c : Collab} {post : SrcFile}
    {r : PostInfo × (String × String)} (h : processFile c post = .ok r) :
    r.1.slug = post.stem
    ∧ r.1.location = post.stem ++ ".html"
    ∧ r.2.1 = r.1.location
    ∧ r.1.dt.tz = utcTz := by
  unfold processFile at h
  split at h
  · cases h
  · split at h
    · split at h
      · cases h
      · split at h
        · cases h
        · split at h
          · cases h
          · split at h
            · cases h
            · split at h
              · cases h
              · simp only at h
                split at h
                · cases h
                · split at h
                  · cases h
                  · cases h
                    exact ⟨rfl, rfl, rfl, rfl⟩
    · cases h

instance : IsTotal PostInfo dtGe :=
  ⟨fun a b => le_total (toEpoch b.dt) (toEpoch a.dt)⟩

instance : IsTrans PostInfo dtGe :=
  ⟨fun _ _ _ hab hbc => le_trans hbc hab⟩

theorem pySortRevByDt_sorted (l : List PostInfo) :
    (pySortRevByDt l).Pairwise dtGe :=
  List.sorted_insertionSort dtGe l

theorem pySortRevByDt_perm (l : List PostInfo) :
    (pySortRevByDt l).Perm l :=
  List.perm_insertionSort dtGe l

/-- Inserting an element into a list keeps the elements with any fixed
date key intact and puts the inserted element in front of the equal
ones, because the insertion point is before the first element the new
one may precede, and every element skipped has a strictly newer key. -/
theorem orderedInsert_filter_dtEq (k : Int) (x : PostInfo) (l : List PostInfo) :
    (List.orderedInsert dtGe x l).filter (fun i => decide (toEpoch i.dt = k))
      = if toEpoch x.dt = k
          then x :: l.filter (fun i => decide (toEpoch i.dt = k))
          else l.filter (fun i => decide (toEpoch i.dt = k)) := by
  induction l with
  | nil =>
    simp only [List.orderedInsert]
    by_cases hk : toEpoch x.dt = k
    · rw [if_pos hk]; simp [hk]
    · rw [if_neg hk]; simp [hk]
  | cons b bs ih =>
    simp only [List.orderedInsert]
    by_cases hd : dtGe x b
    · rw [if_pos hd]
      by_cases hk : toEpoch x.dt = k
      · rw [if_pos hk]; simp [hk]
      · rw [if_neg hk]; simp [hk]
    · rw [if_neg hd]
      have hb : toEpoch x.dt < toEpoch b.dt := lt_of_not_le hd
      by_cases hk : toEpoch x.dt = k
      · rw [if_pos hk]
        have hbk : ¬ toEpoch b.dt = k := by
          intro hbk; rw [hk] at hb; rw [hbk] at hb; exact lt_irrefl k hb
        simp only [List.filter_cons, hbk, decide_eq_true_eq, if_neg hbk]
        simp only [decide_eq_false hbk, Bool.false_eq_true, if_false]
        rw [ih, if_pos hk]
      · rw [if_neg hk]
        by_cases hbk : toEpoch b.dt = k
        · simp only [List.filter_cons, decide_eq_true hbk, if_pos rfl]
          rw [ih, if_neg hk]
        · simp only [List.filter_cons, decide_eq_false hbk, Bool.false_eq_true, if_false]
          rw [ih, if_neg hk]

/-- Stability of the sort: for every date key, the subsequence of
posts carrying that key is unchanged, so posts with equal parsed dates
stay in source-enumeration order. -/
theorem pySortRevByDt_filter_dtEq (k : Int) (l : List PostInfo) :
    (pySortRevByDt l).filter (fun i => decide (toEpoch i.dt = k))
      = l.filter (fun i => decide (toEpoch i.dt = k)) := by
  unfold pySortRevByDt
  induction l with
  | nil => rfl
  | cons x xs ih =>
    simp only [List.insertionSort]
    rw [orderedInsert_filter_dtEq]
    by_cases hk : toEpoch x.dt = k
    · rw [if_pos hk, ih]
      simp [List.filter_cons, hk]
    · rw [if_neg hk, ih]
      simp [List.filter_cons, hk]

/-- Two enumerations of the same posts sort to the same list when no
two posts share a parsed date. -/
theorem pySortRevByDt_eq_of_perm (l l' : List PostInfo)
    (hperm : l.Perm l')
    (hdist : l.Pairwise (fun a b => toEpoch a.dt ≠ toEpoch b.dt)) :
    pySortRevByDt l = pySortRevByDt l' := by
  have hsym : ∀ {a b : PostInfo},
      (fun a b => toEpoch a.dt ≠ toEpoch b.dt) a b →
      (fun a b => toEpoch a.dt ≠ toEpoch b.dt) b a := fun h => Ne.symm h
  have hps : (pySortRevByDt l).Perm (pySortRevByDt l') :=
    (pySortRevByDt_perm l).trans (hperm.trans (pySortRevByDt_perm l').symm)
  have hd1 : (pySortRevByDt l).Pairwise (fun a b => toEpoch a.dt ≠ toEpoch b.dt) :=
    ((pySortRevByDt_perm l).pairwise_iff fun h => hsym h).mpr hdist
  have hd2 : (pySortRevByDt l').Pairwise (fun a b => toEpoch a.dt ≠ toEpoch b.dt) :=
    (hps.pairwise_iff fun h => hsym h).mp hd1
  have hstrict : ∀ {m : List PostInfo}, m.Pairwise dtGe →
      m.Pairwise (fun a b => toEpoch a.dt ≠ toEpoch b.dt) →
      m.Pairwise (fun a b => toEpoch b.dt < toEpoch a.dt) := by
    intro m hge hne
    exact (hge.and hne).imp fun h => lt_of_le_of_ne h.1 (Ne.symm h.2)
  haveI : IsAntisymm PostInfo (fun a b => toEpoch b.dt < toEpoch a.dt) :=
    ⟨fun a b h1 h2 => absurd (lt_trans h1 h2) (lt_irrefl _)⟩
  exact List.eq_of_perm_of_sorted hps
    (hstrict (pySortRevByDt_sorted l) hd1)
    (hstrict (pySortRevByDt_sorted l') hd2)

/-! Lemmas about the Python `max` embedding. -/

theorem foldl_pyMax_mem (ds : List PyDateTime) (d : PyDateTime) :
    ds.foldl (fun cur x => if toEpoch cur < toEpoch x then x else cur) d ∈ d :: ds := by
  induction ds generalizing d with
  | nil => simp
  | cons x xs ih =>
    simp only [List.foldl_cons]
    by_cases hc : toEpoch d < toEpoch x
    · rw [if_pos hc]
      rcases List.mem_cons.mp (ih x) with h | h
      · rw [h]; simp
      · simp [h]
    · rw [if_neg hc]
      rcases List.mem_cons.mp (ih d) with h | h
      · rw [h]; simp
      · simp [h]

theorem le_foldl_pyMax (ds : List PyDateTime) (d : PyDateTime) :
    ∀ y ∈ d :: ds,
      toEpoch y ≤ toEpoch (ds.foldl (fun cur x => if toEpoch cur < toEpoch x then x else cur) d) := by
  induction ds generalizing d with
  | nil =>
    intro y hy
    rcases List.mem_cons.mp hy with rfl | h
    · simp
    · cases h
  | cons x xs ih =>
    intro y hy
    simp only [List.foldl_cons]
    by_cases hc : toEpoch d < toEpoch x
    · rw [if_pos hc]
      rcases List.mem_cons.mp hy with rfl | hy'
      · exact le_trans (le_of_lt hc) (ih x x (List.mem_cons_self _ _))
      · rcases List.mem_cons.mp hy' with rfl | hy''
        · exact ih y y (List.mem_cons_self _ _)
        · exact ih x y (List.mem_cons_of_mem _ hy'')
    · rw [if_neg hc]
      rcases List.mem_cons.mp hy with rfl | hy'
      · exact ih y y (List.mem_cons_self _ _)
      · rcases List.mem_cons.mp hy' with rfl | hy''
        · exact le_trans (le_of_not_lt hc) (ih d d (List.mem_cons_self _ _))
        · exact ih d y (List.mem_cons_of_mem _ hy'')

/-! Claim theorems. -/

/-- Claim C10: when the posts directory holds no Markdown file (the
glob enumerates nothing, also the case of a missing directory), the
build aborts with an error (the NameError of `del post` at line 156)
and emits none of the home page, feed, sitemap or robots outputs. -/
theorem c10_no_posts_aborts (c : Collab) :
    buildSite c [] = .error .nameErrorPost := rfl

/-- Claim C6: in both the Home and the Post skeleton, a substitution
whose mapping supplies no value for a required placeholder is an
error; the placeholder is never left in place or dropped. -/
theorem c6_missing_placeholder_raises (m : List (String × String)) :
    (List.lookup "home" m = none →
      HOME.substitute m = .error (.templateKeyError "home"))
    ∧ (List.lookup "title" m = none →
      POST.substitute m = .error (.templateKeyError "title"))
    ∧ (List.lookup "article" m = none → ∃ e, POST.substitute m = .error e) := by
  refine ⟨?_, ?_, ?_⟩
  · intro h
    simp [Template.substitute, HOME, substituteParts, h]
  · intro h
    simp [Template.substitute, POST, substituteParts, h]
  · intro h
    cases htitle : List.lookup "title" m with
    | none =>
      refine ⟨.templateKeyError "title", ?_⟩
      simp [Template.substitute, POST, substituteParts, htitle]
    | some v =>
      refine ⟨.templateKeyError "article", ?_⟩
      simp [Template.substitute, POST, substituteParts, htitle, h]

/-- Witness for C6 at concrete mappings: the empty mapping misses
"home" and "title", and a title-only mapping misses "article". -/
theorem c6_witness :
    HOME.substitute [] = .error (.templateKeyError "home")
    ∧ POST.substitute [] = .error (.templateKeyError "title")
    ∧ ∃ e, POST.substitute [("title", "x")] = .error e :=
  ⟨(c6_missing_placeholder_raises []).1 rfl,
   (c6_missing_placeholder_raises []).2.1 rfl,
   (c6_missing_placeholder_raises [("title", "x")]).2.2 rfl⟩

/-- Claim C7: a code block with a truthy language tag that matches no
registered lexer makes rendering fail (no silent fallback), while an
untagged block is rendered with a lexer guessed from the code content
rather than failing. -/
theorem c7_block_code_lexer_policy (lexers : List String)
    (guess_lexer : String → String) (highlight : String → String → String)
    (token : CodeToken) :
    (token.language ≠ "" → token.language ∉ lexers →
      render_block_code lexers guess_lexer highlight token
        = .error ("no lexer for alias " ++ token.language))
    ∧ (token.language = "" →
      render_block_code lexers guess_lexer highlight token
        = .ok (highlight token.content (guess_lexer token.content))) := by
  constructor
  · intro hne hnotin
    simp [render_block_code, get_lexer, hne, hnotin]
  · intro heq
    simp [render_block_code, heq]

/-- Witness for C7: an empty registry rejects a python-tagged block
and an untagged block is highlighted with the guessed lexer. -/
theorem c7_witness :
    render_block_code [] (fun _ => "text") (fun code lexer => lexer ++ code)
        { language := "python", content := "x = 1" }
      = .error ("no lexer for alias " ++ "python")
    ∧ render_block_code [] (fun _ => "text") (fun code lexer => lexer ++ code)
        { language := "", content := "x = 1" }
      = .ok ("text" ++ "x = 1") :=
  ⟨(c7_block_code_lexer_policy [] (fun _ => "text") (fun code lexer => lexer ++ code)
      { language := "python", content := "x = 1" }).1 (by decide) (by simp),
   (c7_block_code_lexer_policy [] (fun _ => "text") (fun code lexer => lexer ++ code)
      { language := "", content := "x = 1" }).2 rfl⟩

/-- A concrete parse result carrying an explicit zone of +05:00
(offset 18000 seconds), as dateutil returns for a date string such as
"2024-01-01T06:00:00+05:00". -/
def c4SrcDt : PyDateTime :=
  { year := 2024, month := 1, day := 1, hour := 6, minute := 0, second := 0, tz := some 18000 }

/-- Counterexample to claim C4: the sort key the program computes
(line 148, `replace(tzinfo=utc)` applied unconditionally) differs from
the key the claim describes (UTC only when no zone is present) on a
parse result that carries a zone: the program discards the +05:00
offset instead of respecting it. -/
theorem c4_counterexample :
    toEpoch (pyReplaceTzinfo c4SrcDt utcTz) ≠ toEpoch (specAwareDt c4SrcDt) := by decide

/-- Claim C4 as amended: the sort key applies UTC as the timezone
unconditionally; the stored datetime always carries the UTC tzinfo,
its instant is the parsed wall-clock read as UTC, and any zone of the
parse result is discarded (the key does not depend on it). -/
theorem c4_amended_utc_overrides_zone (d : PyDateTime) :
    (pyReplaceTzinfo d utcTz).tz = utcTz
    ∧ toEpoch (pyReplaceTzinfo d utcTz)
        = (daysFromCivil d.year d.month d.day : Int) * 86400
          + (d.hour : Int) * 3600 + (d.minute : Int) * 60 + (d.second : Int)
    ∧ ∀ tz' : Option Int,
        toEpoch (pyReplaceTzinfo { d with tz := tz' } utcTz)
          = toEpoch (pyReplaceTzinfo d utcTz) := by
  refine ⟨rfl, ?_, fun tz' => rfl⟩
  simp [toEpoch, pyReplaceTzinfo, utcTz]

/-- A concrete post record whose stored dt is 2024-01-01 midnight
UTC. -/
def c3Post : PostInfo :=
  { title := "A", date := "2024-01-01", summary := none, slug := "a", location := "a.html",
    dt := { year := 2024, month := 1, day := 1, hour := 0, minute := 0, second := 0, tz := some 0 } }

/-- Counterexample to claim C3: the sitemap lastmod text of a post is
the full timestamp "2024-01-01T00:00:00+00:00", the same text the
Atom feed uses for that post, and not the date-only form the claim
asserts. -/
theorem c3_counterexample :
    (sitemapUrls [c3Post]).map (fun u => u.lastmod) = ["2024-01-01T00:00:00+00:00"]
    ∧ (atomEntryOf c3Post).updated = "2024-01-01T00:00:00+00:00"
    ∧ specDateOnlyLastmod c3Post.dt = "2024-01-01"
    ∧ ("2024-01-01T00:00:00+00:00" : String) ≠ specDateOnlyLastmod c3Post.dt := by
  refine ⟨?_, ?_, ?_, ?_⟩ <;> decide

/-- Claim C3 as amended: every sitemap url entry's lastmod is the full
`isoformat` timestamp of the post's stored datetime, the same format
and text as the corresponding Atom entry's updated element (Python
defaults the isoformat separator to "T"). -/
theorem c3_amended_lastmod_is_feed_timestamp (infos : List PostInfo) :
    (sitemapUrls infos).map (fun u => u.lastmod)
      = (infos.map atomEntryOf).map (fun e => e.updated) := by
  simp [sitemapUrls, atomEntryOf, List.map_map, Function.comp]

/-- A post file whose first line is the delimiter and which has no
second delimiter line anywhere fails to parse with the
malformed-post error. -/
theorem processFile_malformed (c : Collab) (post : SrcFile)
    (h0 : post.lines.head? = some "---\n")
    (h1 : "---\n" ∉ post.lines.drop 1) :
    processFile c post = .error (.malformedPost post.stem) := by
  have hidx : (post.lines.drop 1).findIdx? (fun l => decide (l = "---\n")) = none := by
    apply List.findIdx?_eq_none_iff.mpr
    intro x hx
    simp only [decide_eq_false_iff_not]
    intro hx2
    exact h1 (hx2 ▸ hx)
  rw [List.drop_one] at hidx
  simp [processFile, h0, hidx]

/-- Claim C5: a post file whose first line is the front-matter
delimiter but which contains no second occurrence of the delimiter
fails to parse with the malformed-post error, and its presence among
the source files makes the whole build abort with an error; the build
produces no output value for any post. -/
theorem c5_missing_close_delimiter_aborts (c : Collab) (files : List SrcFile)
    (post : SrcFile) (hmem : post ∈ files)
    (h0 : post.lines.head? = some "---\n")
    (h1 : "---\n" ∉ post.lines.drop 1) :
    processFile c post = .error (.malformedPost post.stem)
    ∧ ∃ e, buildSite c files = .error e := by
  have hp := processFile_malformed c post h0 h1
  exact ⟨hp, buildSite_error_of_mapExcept (mapExcept_error_of_mem hmem hp)⟩

/-- Collaborators whose behaviour never fails, used to instantiate
build runs on concrete inputs. -/
def cTriv : Collab :=
  { tomllib_loads := fun _ => .ok [("title", "Hello"), ("date", "2024-01-01")]
    dateutil_parse := fun _ =>
      .ok { year := 2024, month := 1, day := 1, hour := 0, minute := 0, second := 0, tz := none }
    markdown_pygments := fun _ => .ok ""
    markdown_home := fun _ => .ok "" }

/-- A truncated post file: opening delimiter, then metadata, no
closing delimiter. -/
def c5BadFile : SrcFile := { stem := "bad", lines := ["---\n", "title = \"x\"\n"] }

/-- Witness for C5 at the concrete truncated file. -/
theorem c5_witness :
    processFile cTriv c5BadFile = .error (.malformedPost "bad")
    ∧ ∃ e, buildSite cTriv [c5BadFile] = .error e :=
  c5_missing_close_delimiter_aborts cTriv [c5BadFile] c5BadFile
    (List.mem_singleton.mpr rfl) rfl (by decide)

/-- Claim C2: for a post list the feed builds from, the entries carry
the posts' isoformat("T") timestamps in order, and the feed's
top-level updated text equals the updated text of an entry whose
datetime is maximal, i.e. the maximum of the entries' timestamps
(equivalently of the parsed post timestamps in the index). -/
theorem c2_feed_updated_is_max (infos : List PostInfo) (feed : AtomFeed)
    (h : atomFeedOf infos = .ok feed) :
    feed.entries.map (fun e => e.updated) = infos.map (fun i => pyIsoformat "T" i.dt)
    ∧ ∃ i ∈ infos, feed.updated = pyIsoformat "T" i.dt
        ∧ ∀ j ∈ infos, toEpoch j.dt ≤ toEpoch i.dt := by
  match infos with
  | [] => simp [atomFeedOf, pyMaxDt] at h
  | i0 :: rest =>
    simp only [atomFeedOf, List.map_cons, pyMaxDt] at h
    cases h
    constructor
    · simp [atomEntryOf, List.map_map, Function.comp]
    · have hmem := foldl_pyMax_mem (rest.map (fun i => i.dt)) i0.dt
      have hub := le_foldl_pyMax (rest.map (fun i => i.dt)) i0.dt
      rcases List.mem_cons.mp hmem with hm | hm
      · refine ⟨i0, List.mem_cons_self _ _, by rw [hm], ?_⟩
        intro j hj
        rw [← hm]
        rcases List.mem_cons.mp hj with rfl | hj'
        · exact hub j.dt (List.mem_cons_self _ _)
        · exact hub j.dt (List.mem_cons_of_mem _ (List.mem_map_of_mem _ hj'))
      · rcases List.mem_map.mp hm with ⟨i, hi, hieq⟩
        refine ⟨i, List.mem_cons_of_mem _ hi, by rw [hieq], ?_⟩
        intro j hj
        rw [hieq]
        rcases List.mem_cons.mp hj with rfl | hj'
        · exact hub j.dt (List.mem_cons_self _ _)
        · exact hub j.dt (List.mem_cons_of_mem _ (List.mem_map_of_mem _ hj'))

/-- Two concrete posts for the feed maximum: June is newer than
January. -/
def c2PostNew : PostInfo :=
  { title := "Jun", date := "2024-06-01", summary := none, slug := "jun", location := "jun.html",
    dt := { year := 2024, month := 6, day := 1, hour := 0, minute := 0, second := 0, tz := some 0 } }

def c2PostOld : PostInfo :=
  { title := "Jan", date := "2024-01-01", summary := none, slug := "jan", location := "jan.html",
    dt := { year := 2024, month := 1, day := 1, hour := 0, minute := 0, second := 0, tz := some 0 } }

/-- Witness for C2 at a concrete two-post feed. -/
theorem c2_witness :
    (exOk (atomFeedOf [c2PostNew, c2PostOld])).entries.map (fun e => e.updated)
        = [c2PostNew, c2PostOld].map (fun i => pyIsoformat "T" i.dt)
    ∧ ∃ i ∈ [c2PostNew, c2PostOld],
        (exOk (atomFeedOf [c2PostNew, c2PostOld])).updated = pyIsoformat "T" i.dt
        ∧ ∀ j ∈ [c2PostNew, c2PostOld], toEpoch j.dt ≤ toEpoch i.dt :=
  c2_feed_updated_is_max [c2PostNew, c2PostOld] (exOk (atomFeedOf [c2PostNew, c2PostOld])) rfl

/-- Two concrete posts with the same parsed date and different
slugs. -/
def c1PostA : PostInfo :=
  { title := "A", date := "2024-03-03", summary := none, slug := "a", location := "a.html",
    dt := { year := 2024, month := 3, day := 3, hour := 0, minute := 0, second := 0, tz := some 0 } }

def c1PostB : PostInfo :=
  { title := "B", date := "2024-03-03", summary := none, slug := "b", location := "b.html",
    dt := { year := 2024, month := 3, day := 3, hour := 0, minute := 0, second := 0, tz := some 0 } }

/-- Counterexample to claim C1: the rendered order is not a function
of the set of posts with a deterministic tie-break.  The same
two-post set, enumerated by the filesystem in the two possible
orders, produces different home-page lists and different feed entry
sequences, because the stable sort keeps the enumeration order of
posts with equal parsed dates. -/
theorem c1_counterexample :
    [c1PostA, c1PostB].Perm [c1PostB, c1PostA]
    ∧ homeLinkLines (pySortRevByDt [c1PostA, c1PostB])
        ≠ homeLinkLines (pySortRevByDt [c1PostB, c1PostA])
    ∧ (pySortRevByDt [c1PostA, c1PostB]).map atomEntryOf
        ≠ (pySortRevByDt [c1PostB, c1PostA]).map atomEntryOf := by
  refine ⟨List.Perm.swap c1PostB c1PostA [], ?_, ?_⟩ <;> decide

/-- Claim C1 as amended: the home-page post list and the Atom feed
entries are generated from one sorted list and appear in identical
order; that order is descending by parsed date; and posts with equal
parsed dates keep their source-enumeration order (the sort is stable),
rather than following a tie-break determined by the post set alone. -/
theorem c1_amended_identical_order (infos : List PostInfo) :
    List.Forall₂ (fun (line : String) (e : AtomEntry) =>
        ∃ i : PostInfo, line = homeLinkLine i ∧ e = atomEntryOf i)
      (homeLinkLines (pySortRevByDt infos))
      ((pySortRevByDt infos).map atomEntryOf)
    ∧ (pySortRevByDt infos).Pairwise dtGe
    ∧ (pySortRevByDt infos).Perm infos
    ∧ ∀ k : Int,
        (pySortRevByDt infos).filter (fun i => decide (toEpoch i.dt = k))
          = infos.filter (fun i => decide (toEpoch i.dt = k)) := by
  refine ⟨?_, pySortRevByDt_sorted infos, pySortRevByDt_perm infos,
    fun k => pySortRevByDt_filter_dtEq k infos⟩
  unfold homeLinkLines
  rw [List.forall₂_map_left_iff, List.forall₂_map_right_iff]
  exact List.forall₂_same.mpr fun i _ => ⟨i, rfl, rfl⟩

/-- The entries of a successfully built feed are the entry records of
the given posts, in order. -/
theorem atomFeedOf_ok_entries {infos : List PostInfo} {feed : AtomFeed}
    (h : atomFeedOf infos = .ok feed) :
    feed.entries = infos.map atomEntryOf := by
  unfold atomFeedOf at h
  split at h
  · cases h
  · cases h; rfl

/-- Every record of a successful loop satisfies the per-post shape
facts. -/
theorem mapExcept_processFile_shape {c : Collab} {files : List SrcFile}
    {rs : List (PostInfo × (String × String))}
    (hrs : mapExcept (processFile c) files = .ok rs) :
    ∀ r ∈ rs, r.2.1 = r.1.location := by
  intro r hr
  rw [mapExcept_ok_eq_map hrs] at hr
  rcases List.mem_map.mp hr with ⟨x, hx, rfl⟩
  rcases mapExcept_ok_mem hrs x hx with ⟨y, hy⟩
  have hxy : exOk (processFile c x) = y := by rw [hy]; rfl
  rw [hxy]
  exact (processFile_ok_shape hy).2.2.1

/-- Claim C8: in a successful build the written post pages are named
by the source file stems followed by ".html" in enumeration order,
and every post link emitted in the home page, the Atom feed and the
sitemap points at one of the written page names. -/
theorem c8_names_and_links_resolve (c : Collab) (files : List SrcFile)
    (rs : List (PostInfo × (String × String))) (out : Outputs)
    (hrs : mapExcept (processFile c) files = .ok rs)
    (h : buildSite c files = .ok out) :
    out.pages.map Prod.fst = files.map (fun f => f.stem ++ ".html")
    ∧ (∀ i ∈ pySortRevByDt (rs.map Prod.fst), i.location ∈ out.pages.map Prod.fst)
    ∧ (∀ e ∈ out.feed.entries, ∃ n ∈ out.pages.map Prod.fst,
        e.linkHref = "https://hauntsaninja.github.io/" ++ n)
    ∧ (∀ u ∈ out.sitemap, ∃ n ∈ out.pages.map Prod.fst,
        u.loc = "https://hauntsaninja.github.io/" ++ n) := by
  obtain ⟨rs', homeHtml, indexHtml, feed, hm, hemp, hh, hsub, hf, hout⟩ := buildSite_ok_inv h
  rw [hrs] at hm
  injection hm with hm
  subst hm
  subst hout
  have hshape := mapExcept_processFile_shape hrs
  have hpages : (rs.map Prod.snd).map Prod.fst = rs.map (fun r => r.1.location) := by
    rw [List.map_map]
    exact List.map_congr_left fun r hr => hshape r hr
  have hloc : ∀ i ∈ pySortRevByDt (rs.map Prod.fst),
      i.location ∈ (rs.map Prod.snd).map Prod.fst := by
    intro i hi
    rw [hpages]
    have hi' : i ∈ rs.map Prod.fst := (pySortRevByDt_perm _).mem_iff.mp hi
    rcases List.mem_map.mp hi' with ⟨r, hr, rfl⟩
    exact List.mem_map_of_mem _ hr
  refine ⟨?_, hloc, ?_, ?_⟩
  · rw [List.map_map, mapExcept_ok_eq_map hrs, List.map_map]
    apply List.map_congr_left
    intro x hx
    rcases mapExcept_ok_mem hrs x hx with ⟨y, hy⟩
    have hxy : exOk (processFile c x) = y := by rw [hy]; rfl
    simp only [Function.comp]
    rw [hxy]
    rw [(processFile_ok_shape hy).2.2.1, (processFile_ok_shape hy).2.1]
  · intro e he
    rw [atomFeedOf_ok_entries hf] at he
    rcases List.mem_map.mp he with ⟨i, hi, rfl⟩
    exact ⟨i.location, hloc i hi, rfl⟩
  · intro u hu
    simp only [sitemapUrls] at hu
    rcases List.mem_map.mp hu with ⟨i, hi, rfl⟩
    exact ⟨i.location, hloc i hi, rfl⟩

/-- A concrete well-formed post file. -/
def c8File : SrcFile := { stem := "hello", lines := ["---\n", "meta\n", "---\n", "body\n"] }

def c8Rs : List (PostInfo × (String × String)) :=
  exOk (mapExcept (processFile cTriv) [c8File])

def c8Out : Outputs := exOk (buildSite cTriv [c8File])

/-- Witness for C8 on a concrete successful one-post build. -/
theorem c8_witness :
    c8Out.pages.map Prod.fst = [c8File].map (fun f => f.stem ++ ".html")
    ∧ (∀ i ∈ pySortRevByDt (c8Rs.map Prod.fst), i.location ∈ c8Out.pages.map Prod.fst)
    ∧ (∀ e ∈ c8Out.feed.entries, ∃ n ∈ c8Out.pages.map Prod.fst,
        e.linkHref = "https://hauntsaninja.github.io/" ++ n)
    ∧ (∀ u ∈ c8Out.sitemap, ∃ n ∈ c8Out.pages.map Prod.fst,
        u.loc = "https://hauntsaninja.github.io/" ++ n) :=
  c8_names_and_links_resolve cTriv [c8File] c8Rs c8Out rfl rfl

/-- Claim C9: the pipeline introduces no source of non-determinism.
A build is a pure function of the enumerated source files; moreover,
whenever no two posts share a parsed date, the output does not even
depend on the enumeration order the filesystem happens to produce:
two successful runs over any two enumerations of the same files give
byte-identical home page, feed, sitemap and robots outputs, and the
same set of written post pages. -/
theorem c9_build_deterministic (c : Collab) (files files' : List SrcFile)
    (rs : List (PostInfo × (String × String))) (out out' : Outputs)
    (hperm : files.Perm files')
    (hrs : mapExcept (processFile c) files = .ok rs)
    (hdist : (rs.map Prod.fst).Pairwise (fun a b => toEpoch a.dt ≠ toEpoch b.dt))
    (h : buildSite c files = .ok out) (h' : buildSite c files' = .ok out') :
    out.indexHtml = out'.indexHtml ∧ out.feed = out'.feed
    ∧ out.sitemap = out'.sitemap ∧ out.robots = out'.robots
    ∧ out.pages.Perm out'.pages := by
  obtain ⟨rs1, homeHtml1, indexHtml1, feed1, hm1, _, hh1, hs1, hf1, hout1⟩ := buildSite_ok_inv h
  obtain ⟨rs2, homeHtml2, indexHtml2, feed2, hm2, _, hh2, hs2, hf2, hout2⟩ := buildSite_ok_inv h'
  rw [hrs] at hm1
  injection hm1 with hm1
  subst hm1
  have hg1 := mapExcept_ok_eq_map hrs
  have hg2 := mapExcept_ok_eq_map hm2
  have hpermrs : rs.Perm rs2 := by
    rw [hg1, hg2]
    exact hperm.map _
  have hsorteq : pySortRevByDt (rs.map Prod.fst) = pySortRevByDt (rs2.map Prod.fst) :=
    pySortRevByDt_eq_of_perm _ _ (hpermrs.map _) hdist
  rw [hsorteq] at hh1 hf1
  rw [hh1] at hh2
  injection hh2 with hh2
  subst hh2
  rw [hs1] at hs2
  injection hs2 with hs2
  subst hs2
  rw [hf1] at hf2
  injection hf2 with hf2
  subst hf2
  subst hout1
  subst hout2
  exact ⟨rfl, rfl, by rw [hsorteq], rfl, hpermrs.map _⟩

/-- Collaborators that parse the two metadata blocks "a" and "b" to
two distinct dates. -/
def c9Collab : Collab :=
  { tomllib_loads := fun s =>
      if s = "a\n" then .ok [("title", "A"), ("date", "2024-01-01")]
      else .ok [("title", "B"), ("date", "2024-06-01")]
    dateutil_parse := fun d =>
      if d = "2024-01-01" then
        .ok { year := 2024, month := 1, day := 1, hour := 0, minute := 0, second := 0, tz := none }
      else
        .ok { year := 2024, month := 6, day := 1, hour := 0, minute := 0, second := 0, tz := none }
    markdown_pygments := fun _ => .ok "x"
    markdown_home := fun _ => .ok "y" }

def c9FileA : SrcFile := { stem := "a", lines := ["---\n", "a\n", "---\n", "p\n"] }

def c9FileB : SrcFile := { stem := "b", lines := ["---\n", "b\n", "---\n", "q\n"] }

def c9Rs : List (PostInfo × (String × String)) :=
  exOk (mapExcept (processFile c9Collab) [c9FileA, c9FileB])

def c9Out : Outputs := exOk (buildSite c9Collab [c9FileA, c9FileB])

def c9OutSwapped : Outputs := exOk (buildSite c9Collab [c9FileB, c9FileA])

/-- Witness for C9: the two enumeration orders of the same two posts
with distinct dates build identical outputs. -/
theorem c9_witness :
    c9Out.indexHtml = c9OutSwapped.indexHtml
    ∧ c9Out.feed = c9OutSwapped.feed
    ∧ c9Out.sitemap = c9OutSwapped.sitemap
    ∧ c9Out.robots = c9OutSwapped.robots
    ∧ c9Out.pages.Perm c9OutSwapped.pages :=
  c9_build_deterministic c9Collab [c9FileA, c9FileB] [c9FileB, c9FileA]
    c9Rs c9Out c9OutSwapped (List.Perm.swap c9FileB c9FileA [])
    rfl (by decide) rfl rfl

end Sssg
